import Mathlib

/-!
A shallow embedding of the PubMed XML decoder (`src/lib.rs` of the
`pubmed_rs` crate) in Lean 4, together with theorems checking the
natural-language specification against it.

Modelling conventions:
* An already-parsed XML tree (`roxmltree::Node`) is the inductive `XmlNode`:
  element nodes carry a tag name, an attribute list and a child list, and
  text nodes carry their content.  `XmlNode.text`, `XmlNode.attribute`,
  `XmlNode.children`, `XmlNode.descendants` mirror the corresponding
  `roxmltree` accessors (`descendants` includes the node itself, in
  document order, exactly as in `roxmltree`).
* Rust machine integers are `Nat`/`Int` with the numeric-string parsers
  (`parse_unsigned`, `parse_signed`) performing the range check that
  `str::parse::<uN>/<iN>` performs (value out of range is a parse error).
* The crate's `missing_tag_warning` is compiled conditionally: under
  `#[cfg(debug_assertions)]` it panics with the message, under
  `#[cfg(not(debug_assertions))]` it is a no-op.  The embedding makes the
  build-time flag an explicit parameter `dbg : Bool` of every decoder that
  can reach `missing_tag_warning`: `dbg = true` is the debug build (panic
  = `Except.error`), `dbg = false` is the release build (nothing happens,
  no output).  A decoder returns `Dec α = Except String (α × List String)`:
  a panic aborts everything (`Except.error` with the panic message), a
  normal return carries the value plus the list of lines printed with
  `println!` along the way (only `PubmedData::add_references_from_xml`
  prints).
* Rust `to_lowercase` is modelled per ASCII character (`Char.toLower`);
  the month abbreviations and all inputs of interest are ASCII.
-/

inductive XmlNode where
  | element (tag : String) (attrs : List (String × String)) (childNodes : List XmlNode)
  | textNode (content : String)
deriving Repr

/-- `roxmltree::Node::children`: the direct children of an element. -/
def XmlNode.children : XmlNode → List XmlNode
  | .element _ _ cs => cs
  | .textNode _ => []

/-- `roxmltree::Node::is_element`. -/
def XmlNode.is_element : XmlNode → Bool
  | .element _ _ _ => true
  | .textNode _ => false

/-- `roxmltree::Node::tag_name().name()` (empty for non-element nodes). -/
def XmlNode.tag_name : XmlNode → String
  | .element t _ _ => t
  | .textNode _ => ""

/-- `roxmltree::Node::attribute`: the value of the first attribute with the
given name. -/
def XmlNode.attribute (n : XmlNode) (key : String) : Option String :=
  match n with
  | .element _ attrs _ => (attrs.find? (fun p => p.1 = key)).map (fun p => p.2)
  | .textNode _ => none

/-- `roxmltree::Node::text`: for an element, the content of its first child
if that child is a text node; for a text node, its content. -/
def XmlNode.text : XmlNode → Option String
  | .element _ _ (.textNode s :: _) => some s
  | .element _ _ _ => none
  | .textNode s => some s

mutual

/-- `roxmltree::Node::descendants`: the node itself and all its descendants
in document order. -/
def XmlNode.descendants : XmlNode → List XmlNode
  | .element t a cs => .element t a cs :: XmlNode.descendantsList cs
  | .textNode s => [.textNode s]

def XmlNode.descendantsList : List XmlNode → List XmlNode
  | [] => []
  | c :: cs => XmlNode.descendants c ++ XmlNode.descendantsList cs

end

/-- The result of running a piece of decoder code: either a panic with its
message (debug build aborting on an unknown tag), or a value together with
the list of diagnostic lines printed on stdout along the way. -/
abbrev Dec (α : Type) : Type := Except String (α × List String)

instance {ε α : Type} [DecidableEq ε] [DecidableEq α] : DecidableEq (Except ε α)
  | .error a, .error b =>
    if h : a = b then isTrue (by rw [h])
    else isFalse (by intro hh; injection hh; contradiction)
  | .error _, .ok _ => isFalse (fun h => Except.noConfusion h)
  | .ok _, .error _ => isFalse (fun h => Except.noConfusion h)
  | .ok a, .ok b =>
    if h : a = b then isTrue (by rw [h])
    else isFalse (by intro hh; injection hh; contradiction)

/-- `missing_tag_warning` from `src/lib.rs`: under `cfg(debug_assertions)`
(`dbg = true`) it panics with the message; in a release build
(`dbg = false`) its body is empty — it neither fails nor prints. -/
def missing_tag_warning (dbg : Bool) (s : String) : Dec Unit :=
  if dbg then .error s else .ok ((), [])

/-- A match arm `x => missing_tag_warning(...)` inside a decoding loop:
run the warning, keep the accumulator unchanged. -/
def warnStep {α : Type} (dbg : Bool) (s : String) (a : α) : Dec α :=
  match missing_tag_warning dbg s with
  | .error e => .error e
  | .ok (_, w) => .ok (a, w)

/-- The `for n in node.children().filter(|n| n.is_element())` loops of the
decoders: fold a step function over a child list, threading the
accumulator, aborting on panic, concatenating printed lines. -/
def foldChildren {α : Type} (step : α → XmlNode → Dec α) : α → List XmlNode → Dec α
  | a, [] => .ok (a, [])
  | a, c :: cs =>
    match step a c with
    | .error e => .error e
    | .ok (a2, w) =>
      match foldChildren step a2 cs with
      | .error e => .error e
      | .ok (b, w2) => .ok (b, w ++ w2)

/-- `iter.map(f).collect::<Vec<_>>()` over decoders that may panic:
decode each node in order. -/
def decMapList {α : Type} (f : XmlNode → Dec α) : List XmlNode → Dec (List α)
  | [] => .ok ([], [])
  | c :: cs =>
    match f c with
    | .error e => .error e
    | .ok (a, w) =>
      match decMapList f cs with
      | .error e => .error e
      | .ok (as2, w2) => .ok (a :: as2, w ++ w2)

/-- Value of a list of ASCII decimal digits; `none` if empty or if any
character is not an ASCII digit (as in Rust's integer `from_str`). -/
def digitsVal (cs : List Char) : Option Nat :=
  match cs with
  | [] => none
  | _ =>
    cs.foldl
      (fun acc c =>
        match acc with
        | some v => if c.isDigit then some (v * 10 + (c.toNat - 48)) else none
        | none => none)
      (some 0)

/-- Strip the optional leading plus sign accepted by Rust's unsigned
`from_str`. -/
def stripPlus : List Char → List Char
  | '+' :: rest => rest
  | other => other

/-- Rust `str::parse::<uN>()` for an unsigned type with `2^N = bound`:
an optional leading plus sign, then at least one ASCII digit, and the
value must be below `bound` (otherwise a `PosOverflow` error). -/
def parse_unsigned (bound : Nat) (s : String) : Option Nat :=
  match digitsVal (stripPlus s.data) with
  | some v => if v < bound then some v else none
  | none => none

/-- Rust `str::parse::<iN>()` for a signed type with range `[lo, hi]`:
an optional sign, then at least one ASCII digit, range-checked. -/
def parse_signed (lo hi : Int) (s : String) : Option Int :=
  match s.data with
  | '-' :: rest =>
    match digitsVal rest with
    | some v => if lo ≤ -(v : Int) then some (-(v : Int)) else none
    | none => none
  | '+' :: rest =>
    match digitsVal rest with
    | some v => if (v : Int) ≤ hi then some v else none
    | none => none
  | _ =>
    match digitsVal s.data with
    | some v => if (v : Int) ≤ hi then some v else none
    | none => none

/-- ASCII model of Rust `str::to_lowercase`. -/
def strLower (s : String) : String := ⟨s.data.map Char.toLower⟩

/-- `map_or(false, |v| v == "Y")` on an optional attribute value: the
uniform Y/N-flag rule. -/
def ynFlag : Option String → Bool
  | some v => v == "Y"
  | none => false

structure PubMedDate where
  year : Nat
  month : Nat
  day : Nat
  hour : Int
  minute : Int
  date_type : Option String
  pub_status : Option String
deriving Repr, DecidableEq

namespace PubMedDate

/-- The initial `ret` of `PubMedDate::new_from_xml`. -/
def init (node : XmlNode) : PubMedDate :=
  { year := 0, month := 0, day := 0, hour := -1, minute := -1,
    date_type := node.attribute "DateType",
    pub_status := node.attribute "PubStatus" }

/-- The inner `match` of `PubMedDate::parse_month_from_xml` on the
lowercased text. -/
def parse_month_text (t : String) : Nat :=
  match strLower t with
  | "jan" => 1
  | "feb" => 2
  | "mar" => 3
  | "apr" => 4
  | "may" => 5
  | "jun" => 6
  | "jul" => 7
  | "aug" => 8
  | "sep" => 9
  | "oct" => 10
  | "nov" => 11
  | "dec" => 12
  | other => (parse_unsigned 256 other).getD 0

/-- `PubMedDate::parse_month_from_xml`. -/
def parse_month_from_xml (node : XmlNode) : Nat :=
  match node.text with
  | some t => parse_month_text t
  | none => 0

/-- One iteration of the child loop in `PubMedDate::new_from_xml`. -/
def step (dbg : Bool) (ret : PubMedDate) (n : XmlNode) : Dec PubMedDate :=
  match n with
  | .textNode _ => .ok (ret, [])
  | .element tag _ _ =>
    match tag with
    | "MedlineDate" => .ok (ret, [])
    | "Year" =>
      .ok ({ ret with year :=
        match n.text with
        | some v => (parse_unsigned (2 ^ 32) v).getD 0
        | none => 0 }, [])
    | "Month" => .ok ({ ret with month := parse_month_from_xml n }, [])
    | "Day" =>
      .ok ({ ret with day :=
        match n.text with
        | some v => (parse_unsigned 256 v).getD 0
        | none => 0 }, [])
    | "Hour" =>
      .ok ({ ret with hour :=
        match n.text with
        | some v => (parse_signed (-128) 127 v).getD (-1)
        | none => -1 }, [])
    | "Minute" =>
      .ok ({ ret with minute :=
        match n.text with
        | some v => (parse_signed (-128) 127 v).getD (-1)
        | none => -1 }, [])
    | "Season" => .ok (ret, [])
    | x => warnStep dbg ("Not covered in PubMedDate: '" ++ x ++ "'") ret

/-- `PubMedDate::precision` (13 = minute, 12 = hour, 11 = day, 10 = month,
9 = year, 0 = no year). -/
def precision (d : PubMedDate) : Nat :=
  if d.year = 0 then 0
  else if d.month = 0 then 9
  else if d.day = 0 then 10
  else if d.hour = -1 then 11
  else if d.minute = -1 then 12
  else 13

/-- `PubMedDate::new_from_xml`. -/
def new_from_xml (dbg : Bool) (node : XmlNode) : Dec (Option PubMedDate) :=
  match foldChildren (step dbg) (init node) node.children with
  | .error e => .error e
  | .ok (ret, w) =>
    .ok ((match ret.precision with
          | 0 => none
          | _ => some ret), w)

end PubMedDate

structure MeshTermPart where
  ui : Option String
  major_topic : Bool
  name : Option String
deriving Repr, DecidableEq

/-- `MeshTermPart::new_from_xml` (pure: it reads only attributes and
text). -/
def MeshTermPart.new_from_xml (node : XmlNode) : MeshTermPart :=
  { ui := node.attribute "UI",
    major_topic := ynFlag (node.attribute "MajorTopicYN"),
    name := node.text }

structure MeshHeading where
  descriptor : MeshTermPart
  qualifiers : List MeshTermPart
deriving Repr, DecidableEq

/-- `MeshHeading::new_from_xml`: the first `DescriptorName` descendant is
mandatory (`?` returns `None` when there is none); all `QualifierName`
descendants are collected in document order. -/
def MeshHeading.new_from_xml (node : XmlNode) : Option MeshHeading :=
  match (node.descendants.filter
      (fun n => n.is_element && n.tag_name == "DescriptorName")).head? with
  | none => none
  | some node_descriptor =>
    some { descriptor := MeshTermPart.new_from_xml node_descriptor,
           qualifiers :=
             (node.descendants.filter
               (fun n => n.is_element && n.tag_name == "QualifierName")).map
               MeshTermPart.new_from_xml }

structure ELocationID where
  e_id_type : Option String
  valid : Bool
  id : Option String
deriving Repr, DecidableEq

/-- `ELocationID::new_from_xml`. -/
def ELocationID.new_from_xml (node : XmlNode) : ELocationID :=
  { e_id_type := node.attribute "EIdType",
    valid := ynFlag (node.attribute "ValidYN"),
    id := node.text }

structure Abstract where
  text : Option String
deriving Repr, DecidableEq

/-- The `AbstractText` element descendants of an `Abstract` node, in
document order (the filter inside `Abstract::new_from_xml`). -/
def abstractTextNodes (node : XmlNode) : List XmlNode :=
  node.descendants.filter (fun n => n.is_element && n.tag_name == "AbstractText")

/-- `Abstract::new_from_xml`: map each `AbstractText` descendant to its
text (`""` when it has none), keep the first (`next()`). -/
def Abstract.new_from_xml (node : XmlNode) : Abstract :=
  { text := ((abstractTextNodes node).map (fun n => (n.text).getD "")).head? }

structure Identifier where
  id : Option String
  source : Option String
deriving Repr, DecidableEq

/-- `Identifier::new_from_xml`. -/
def Identifier.new_from_xml (node : XmlNode) : Identifier :=
  { id := node.text,
    source := node.attribute "Source" }

structure AffiliationInfo where
  affiliation : Option String
  identifiers : List Identifier
deriving Repr, DecidableEq

namespace AffiliationInfo

def init : AffiliationInfo := { affiliation := none, identifiers := [] }

/-- One iteration of the child loop in `AffiliationInfo::new_from_xml`. -/
def step (dbg : Bool) (ret : AffiliationInfo) (n : XmlNode) : Dec AffiliationInfo :=
  match n with
  | .textNode _ => .ok (ret, [])
  | .element tag _ _ =>
    match tag with
    | "Affiliation" => .ok ({ ret with affiliation := n.text }, [])
    | "Identifier" =>
      .ok ({ ret with identifiers := ret.identifiers ++ [Identifier.new_from_xml n] }, [])
    | x => warnStep dbg ("Not covered in AffiliationInfo: '" ++ x ++ "'") ret

/-- `AffiliationInfo::new_from_xml`. -/
def new_from_xml (dbg : Bool) (node : XmlNode) : Dec AffiliationInfo :=
  foldChildren (step dbg) init node.children

end AffiliationInfo

structure Author where
  last_name : Option String
  fore_name : Option String
  initials : Option String
  suffix : Option String
  collective_name : Option String
  affiliation_info : Option AffiliationInfo
  identifiers : List Identifier
  valid : Bool
deriving Repr, DecidableEq

namespace Author

/-- The initial `ret` of `Author::new_from_xml` (the `ValidYN` attribute is
read up front). -/
def init (node : XmlNode) : Author :=
  { last_name := none, fore_name := none, initials := none, suffix := none,
    collective_name := none, affiliation_info := none, identifiers := [],
    valid := ynFlag (node.attribute "ValidYN") }

/-- One iteration of the child loop in `Author::new_from_xml`. -/
def step (dbg : Bool) (ret : Author) (n : XmlNode) : Dec Author :=
  match n with
  | .textNode _ => .ok (ret, [])
  | .element tag _ _ =>
    match tag with
    | "LastName" => .ok ({ ret with last_name := n.text }, [])
    | "ForeName" => .ok ({ ret with fore_name := n.text }, [])
    | "CollectiveName" => .ok ({ ret with collective_name := n.text }, [])
    | "Initials" => .ok ({ ret with initials := n.text }, [])
    | "Suffix" => .ok ({ ret with suffix := n.text }, [])
    | "Identifier" =>
      .ok ({ ret with identifiers := ret.identifiers ++ [Identifier.new_from_xml n] }, [])
    | "AffiliationInfo" =>
      match AffiliationInfo.new_from_xml dbg n with
      | .error e => .error e
      | .ok (af, w) => .ok ({ ret with affiliation_info := some af }, w)
    | x => warnStep dbg ("Not covered in Author: '" ++ x ++ "'") ret

/-- `Author::new_from_xml`. -/
def new_from_xml (dbg : Bool) (node : XmlNode) : Dec Author :=
  foldChildren (step dbg) (init node) node.children

end Author

structure AuthorList where
  authors : List Author
  complete : Bool
deriving Repr, DecidableEq

/-- `AuthorList::new_from_xml`: all `Author` element descendants are
decoded in document order. -/
def AuthorList.new_from_xml (dbg : Bool) (node : XmlNode) : Dec AuthorList :=
  match decMapList (Author.new_from_xml dbg)
      (node.descendants.filter (fun n => n.is_element && n.tag_name == "Author")) with
  | .error e => .error e
  | .ok (as2, w) =>
    .ok ({ complete := ynFlag (node.attribute "CompleteYN"), authors := as2 }, w)

structure JournalIssue where
  cited_medium : Option String
  volume : Option String
  issue : Option String
  pub_date : Option PubMedDate
deriving Repr, DecidableEq

namespace JournalIssue

/-- `JournalIssue::new` followed by the `CitedMedium` attribute read. -/
def init (node : XmlNode) : JournalIssue :=
  { cited_medium := node.attribute "CitedMedium",
    volume := none, issue := none, pub_date := none }

/-- One iteration of the child loop in `JournalIssue::new_from_xml`. -/
def step (dbg : Bool) (ret : JournalIssue) (n : XmlNode) : Dec JournalIssue :=
  match n with
  | .textNode _ => .ok (ret, [])
  | .element tag _ _ =>
    match tag with
    | "PubDate" =>
      match PubMedDate.new_from_xml dbg n with
      | .error e => .error e
      | .ok (d, w) => .ok ({ ret with pub_date := d }, w)
    | "Volume" => .ok ({ ret with volume := n.text }, [])
    | "Issue" => .ok ({ ret with issue := n.text }, [])
    | x => warnStep dbg ("Not covered in JournalIssue: '" ++ x ++ "'") ret

/-- `JournalIssue::new_from_xml`. -/
def new_from_xml (dbg : Bool) (node : XmlNode) : Dec JournalIssue :=
  foldChildren (step dbg) (init node) node.children

end JournalIssue

structure Journal where
  issn : Option String
  issn_type : Option String
  journal_issue : Option JournalIssue
  title : Option String
  iso_abbreviation : Option String
deriving Repr, DecidableEq

namespace Journal

/-- `Journal::new`. -/
def init : Journal :=
  { issn := none, issn_type := none, journal_issue := none,
    title := none, iso_abbreviation := none }

/-- One iteration of the child loop in `Journal::new_from_xml`. -/
def step (dbg : Bool) (ret : Journal) (n : XmlNode) : Dec Journal :=
  match n with
  | .textNode _ => .ok (ret, [])
  | .element tag _ _ =>
    match tag with
    | "ISSN" =>
      .ok ({ ret with issn := n.text, issn_type := n.attribute "IssnType" }, [])
    | "JournalIssue" =>
      match JournalIssue.new_from_xml dbg n with
      | .error e => .error e
      | .ok (ji, w) => .ok ({ ret with journal_issue := some ji }, w)
    | "Title" => .ok ({ ret with title := n.text }, [])
    | "ISOAbbreviation" => .ok ({ ret with iso_abbreviation := n.text }, [])
    | x => warnStep dbg ("Not covered in Journal: '" ++ x ++ "'") ret

/-- `Journal::new_from_xml`. -/
def new_from_xml (dbg : Bool) (node : XmlNode) : Dec Journal :=
  foldChildren (step dbg) init node.children

end Journal

inductive Pagination where
  | MedlinePgn (s : String)
deriving Repr, DecidableEq

structure Grant where
  grant_id : Option String
  agency : Option String
  country : Option String
  acronym : Option String
deriving Repr, DecidableEq

namespace Grant

def init : Grant :=
  { grant_id := none, agency := none, country := none, acronym := none }

/-- One iteration of the child loop in `Grant::new_from_xml`. -/
def step (dbg : Bool) (ret : Grant) (n : XmlNode) : Dec Grant :=
  match n with
  | .textNode _ => .ok (ret, [])
  | .element tag _ _ =>
    match tag with
    | "GrantID" => .ok ({ ret with grant_id := n.text }, [])
    | "Agency" => .ok ({ ret with agency := n.text }, [])
    | "Country" => .ok ({ ret with country := n.text }, [])
    | "Acronym" => .ok ({ ret with acronym := n.text }, [])
    | x => warnStep dbg ("Not covered in Grant: '" ++ x ++ "'") ret

/-- `Grant::new_from_xml`. -/
def new_from_xml (dbg : Bool) (node : XmlNode) : Dec Grant :=
  foldChildren (step dbg) init node.children

end Grant

structure GrantList where
  grants : List Grant
  complete : Bool
deriving Repr, DecidableEq

/-- `GrantList::new_from_xml`: all `Grant` element descendants decoded in
document order. -/
def GrantList.new_from_xml (dbg : Bool) (node : XmlNode) : Dec GrantList :=
  match decMapList (Grant.new_from_xml dbg)
      (node.descendants.filter (fun n => n.is_element && n.tag_name == "Grant")) with
  | .error e => .error e
  | .ok (gs, w) =>
    .ok ({ complete := ynFlag (node.attribute "CompleteYN"), grants := gs }, w)

structure PublicationType where
  ui : Option String
  name : Option String
deriving Repr, DecidableEq

/-- `PublicationType::new_from_xml`. -/
def PublicationType.new_from_xml (node : XmlNode) : PublicationType :=
  { ui := node.attribute "UI", name := node.text }

structure Article where
  pub_model : Option String
  journal : Option Journal
  title : Option String
  pagination : List Pagination
  e_location_ids : List ELocationID
  the_abstract : Option Abstract
  author_list : Option AuthorList
  language : Option String
  vernacular_title : Option String
  grant_list : Option GrantList
  publication_type_list : List PublicationType
  article_date : List PubMedDate
deriving Repr, DecidableEq

namespace Article

/-- `Article::new`. -/
def initNew : Article :=
  { pub_model := none, journal := none, title := none, pagination := [],
    e_location_ids := [], the_abstract := none, author_list := none,
    language := none, vernacular_title := none, grant_list := none,
    publication_type_list := [], article_date := [] }

/-- The start of `Article::new_from_xml`: `Article::new()` plus the
`PubModel` attribute. -/
def init (node : XmlNode) : Article :=
  { initNew with pub_model := node.attribute "PubModel" }

/-- One iteration of the inner loop on the children of a `Pagination`
child. -/
def pagination_step (dbg : Bool) (ret : Article) (n2 : XmlNode) : Dec Article :=
  match n2 with
  | .textNode _ => .ok (ret, [])
  | .element tag _ _ =>
    match tag with
    | "MedlinePgn" =>
      .ok ({ ret with pagination :=
        ret.pagination ++ [Pagination.MedlinePgn ((n2.text).getD "")] }, [])
    | x => warnStep dbg ("Not covered in Pagination: '" ++ x ++ "'") ret

/-- One iteration of the child loop in `Article::new_from_xml`. -/
def step (dbg : Bool) (ret : Article) (n : XmlNode) : Dec Article :=
  match n with
  | .textNode _ => .ok (ret, [])
  | .element tag _ _ =>
    match tag with
    | "ArticleTitle" => .ok ({ ret with title := n.text }, [])
    | "Journal" =>
      match Journal.new_from_xml dbg n with
      | .error e => .error e
      | .ok (j, w) => .ok ({ ret with journal := some j }, w)
    | "Pagination" => foldChildren (pagination_step dbg) ret n.children
    | "ELocationID" =>
      .ok ({ ret with e_location_ids :=
        ret.e_location_ids ++ [ELocationID.new_from_xml n] }, [])
    | "Abstract" => .ok ({ ret with the_abstract := some (Abstract.new_from_xml n) }, [])
    | "AuthorList" =>
      match AuthorList.new_from_xml dbg n with
      | .error e => .error e
      | .ok (al, w) => .ok ({ ret with author_list := some al }, w)
    | "Language" => .ok ({ ret with language := n.text }, [])
    | "VernacularTitle" => .ok ({ ret with vernacular_title := n.text }, [])
    | "GrantList" =>
      match GrantList.new_from_xml dbg n with
      | .error e => .error e
      | .ok (gl, w) => .ok ({ ret with grant_list := some gl }, w)
    | "ArticleDate" =>
      match PubMedDate.new_from_xml dbg n with
      | .error e => .error e
      | .ok (some date, w) => .ok ({ ret with article_date := ret.article_date ++ [date] }, w)
      | .ok (none, w) => .ok (ret, w)
    | "PublicationTypeList" =>
      .ok ({ ret with publication_type_list :=
        ((n.children.filter (fun c => c.is_element && c.tag_name == "PublicationType")).map
          PublicationType.new_from_xml) }, [])
    | "DataBankList" => .ok (ret, [])
    | x => warnStep dbg ("Not covered in Article: '" ++ x ++ "'") ret

/-- `Article::new_from_xml`. -/
def new_from_xml (dbg : Bool) (node : XmlNode) : Dec Article :=
  foldChildren (step dbg) (init node) node.children

end Article

structure MedlineJournalInfo where
  country : Option String
  medline_ta : Option String
  nlm_unique_id : Option String
  issn_linking : Option String
deriving Repr, DecidableEq

namespace MedlineJournalInfo

def init : MedlineJournalInfo :=
  { country := none, medline_ta := none, nlm_unique_id := none, issn_linking := none }

/-- One iteration of the child loop in `MedlineJournalInfo::new_from_xml`. -/
def step (dbg : Bool) (ret : MedlineJournalInfo) (n : XmlNode) : Dec MedlineJournalInfo :=
  match n with
  | .textNode _ => .ok (ret, [])
  | .element tag _ _ =>
    match tag with
    | "Country" => .ok ({ ret with country := n.text }, [])
    | "MedlineTA" => .ok ({ ret with medline_ta := n.text }, [])
    | "NlmUniqueID" => .ok ({ ret with nlm_unique_id := n.text }, [])
    | "ISSNLinking" => .ok ({ ret with issn_linking := n.text }, [])
    | x => warnStep dbg ("Not covered in MedlineJournalInfo: '" ++ x ++ "'") ret

/-- `MedlineJournalInfo::new_from_xml`. -/
def new_from_xml (dbg : Bool) (node : XmlNode) : Dec MedlineJournalInfo :=
  foldChildren (step dbg) init node.children

end MedlineJournalInfo

structure OtherID where
  source : Option String
  id : Option String
deriving Repr, DecidableEq

structure Keyword where
  keyword : String
  major_topic : Bool
deriving Repr, DecidableEq

structure KeywordList where
  owner : Option String
  keywords : List Keyword
deriving Repr, DecidableEq

namespace KeywordList

def init (node : XmlNode) : KeywordList :=
  { owner := node.attribute "Owner", keywords := [] }

/-- One iteration of the child loop in `KeywordList::new_from_xml`. -/
def step (dbg : Bool) (ret : KeywordList) (n : XmlNode) : Dec KeywordList :=
  match n with
  | .textNode _ => .ok (ret, [])
  | .element tag _ _ =>
    match tag with
    | "Keyword" =>
      .ok ({ ret with keywords := ret.keywords ++
        [{ major_topic := ynFlag (n.attribute "MajorTopicYN"),
           keyword := (n.text).getD "" }] }, [])
    | x => warnStep dbg ("Not covered in KeywordList: '" ++ x ++ "'") ret

/-- `KeywordList::new_from_xml`. -/
def new_from_xml (dbg : Bool) (node : XmlNode) : Dec KeywordList :=
  foldChildren (step dbg) (init node) node.children

end KeywordList

structure Chemical where
  registry_number : Option String
  name_of_substance : Option String
  name_of_substance_ui : Option String
deriving Repr, DecidableEq

namespace Chemical

def init : Chemical :=
  { registry_number := none, name_of_substance := none, name_of_substance_ui := none }

/-- One iteration of the child loop in `Chemical::new_from_xml`. -/
def step (dbg : Bool) (ret : Chemical) (n : XmlNode) : Dec Chemical :=
  match n with
  | .textNode _ => .ok (ret, [])
  | .element tag _ _ =>
    match tag with
    | "RegistryNumber" => .ok ({ ret with registry_number := n.text }, [])
    | "NameOfSubstance" =>
      .ok ({ ret with name_of_substance := n.text
                      name_of_substance_ui := n.attribute "UI" }, [])
    | x => warnStep dbg ("Not covered in Chemical: '" ++ x ++ "'") ret

/-- `Chemical::new_from_xml`. -/
def new_from_xml (dbg : Bool) (node : XmlNode) : Dec Chemical :=
  foldChildren (step dbg) init node.children

end Chemical

structure MedlineCitation where
  pmid : Nat
  date_completed : Option PubMedDate
  date_revised : Option PubMedDate
  mesh_heading_list : List MeshHeading
  medline_journal_info : Option MedlineJournalInfo
  article : Option Article
  other_ids : List OtherID
  citation_subsets : List String
  gene_symbol_list : List String
  keyword_lists : List KeywordList
  chemical_list : List Chemical
  investigator_list : List Author
  coi_statement : Option String
  number_of_references : Option String
deriving Repr, DecidableEq

namespace MedlineCitation

/-- `MedlineCitation::new`. -/
def init : MedlineCitation :=
  { pmid := 0, date_completed := none, date_revised := none,
    mesh_heading_list := [], medline_journal_info := none, article := none,
    other_ids := [], citation_subsets := [], gene_symbol_list := [],
    keyword_lists := [], chemical_list := [], investigator_list := [],
    coi_statement := none, number_of_references := none }

/-- One iteration of the loop in `MedlineCitation::chemical_list`. -/
def chemical_list_step (dbg : Bool) (ret : MedlineCitation) (n : XmlNode) : Dec MedlineCitation :=
  match n with
  | .textNode _ => .ok (ret, [])
  | .element tag _ _ =>
    match tag with
    | "Chemical" =>
      match Chemical.new_from_xml dbg n with
      | .error e => .error e
      | .ok (c, w) => .ok ({ ret with chemical_list := ret.chemical_list ++ [c] }, w)
    | x => warnStep dbg ("Not covered in MedlineCitation::ChemicalList: '" ++ x ++ "'") ret

/-- `MedlineCitation::chemical_list` (the method; renamed to avoid clashing
with the field of the same name). -/
def chemical_list_from_xml (dbg : Bool) (ret : MedlineCitation) (node : XmlNode) :
    Dec MedlineCitation :=
  foldChildren (chemical_list_step dbg) ret node.children

/-- One iteration of the loop in `MedlineCitation::investigator_list`. -/
def investigator_list_step (dbg : Bool) (ret : MedlineCitation) (n : XmlNode) :
    Dec MedlineCitation :=
  match n with
  | .textNode _ => .ok (ret, [])
  | .element tag _ _ =>
    match tag with
    | "Investigator" =>
      match Author.new_from_xml dbg n with
      | .error e => .error e
      | .ok (a, w) => .ok ({ ret with investigator_list := ret.investigator_list ++ [a] }, w)
    | x =>
      warnStep dbg ("Not covered in MedlineCitation::InvestigatorList: '" ++ x ++ "'") ret

/-- `MedlineCitation::investigator_list` (the method). -/
def investigator_list_from_xml (dbg : Bool) (ret : MedlineCitation) (node : XmlNode) :
    Dec MedlineCitation :=
  foldChildren (investigator_list_step dbg) ret node.children

/-- One iteration of the loop in `MedlineCitation::gene_symbol_list`. -/
def gene_symbol_list_step (dbg : Bool) (ret : MedlineCitation) (n : XmlNode) :
    Dec MedlineCitation :=
  match n with
  | .textNode _ => .ok (ret, [])
  | .element tag _ _ =>
    match tag with
    | "GeneSymbol" =>
      .ok ({ ret with gene_symbol_list := ret.gene_symbol_list ++ [(n.text).getD ""] }, [])
    | x =>
      warnStep dbg ("Not covered in MedlineCitation::GeneSymbolList: '" ++ x ++ "'") ret

/-- `MedlineCitation::gene_symbol_list` (the method). -/
def gene_symbol_list_from_xml (dbg : Bool) (ret : MedlineCitation) (node : XmlNode) :
    Dec MedlineCitation :=
  foldChildren (gene_symbol_list_step dbg) ret node.children

/-- The `MeshHeadingList` handler body in `MedlineCitation::new_from_xml`:
decode every `MeshHeading` element descendant, dropping those whose
decoder returns `None`. -/
def meshHeadingListFrom (node : XmlNode) : List MeshHeading :=
  (node.descendants.filter (fun c => c.is_element && c.tag_name == "MeshHeading")).filterMap
    MeshHeading.new_from_xml

/-- One iteration of the child loop in `MedlineCitation::new_from_xml`. -/
def step (dbg : Bool) (ret : MedlineCitation) (n : XmlNode) : Dec MedlineCitation :=
  match n with
  | .textNode _ => .ok (ret, [])
  | .element tag _ _ =>
    match tag with
    | "PMID" =>
      match n.text with
      | some id => .ok ({ ret with pmid := (parse_unsigned (2 ^ 64) id).getD 0 }, [])
      | none => .ok (ret, [])
    | "CoiStatement" => .ok ({ ret with coi_statement := n.text }, [])
    | "NumberOfReferences" => .ok ({ ret with number_of_references := n.text }, [])
    | "KeywordList" =>
      match KeywordList.new_from_xml dbg n with
      | .error e => .error e
      | .ok (kl, w) => .ok ({ ret with keyword_lists := ret.keyword_lists ++ [kl] }, w)
    | "ChemicalList" => chemical_list_from_xml dbg ret n
    | "GeneSymbolList" => gene_symbol_list_from_xml dbg ret n
    | "InvestigatorList" => investigator_list_from_xml dbg ret n
    | "OtherID" =>
      .ok ({ ret with other_ids := ret.other_ids ++
        [{ source := n.attribute "Source", id := n.text }] }, [])
    | "CitationSubset" =>
      match n.text with
      | some subset => .ok ({ ret with citation_subsets := ret.citation_subsets ++ [subset] }, [])
      | none => .ok (ret, [])
    | "DateCompleted" =>
      match PubMedDate.new_from_xml dbg n with
      | .error e => .error e
      | .ok (d, w) => .ok ({ ret with date_completed := d }, w)
    | "DateRevised" =>
      match PubMedDate.new_from_xml dbg n with
      | .error e => .error e
      | .ok (d, w) => .ok ({ ret with date_revised := d }, w)
    | "Article" =>
      match Article.new_from_xml dbg n with
      | .error e => .error e
      | .ok (a, w) => .ok ({ ret with article := some a }, w)
    | "MedlineJournalInfo" =>
      match MedlineJournalInfo.new_from_xml dbg n with
      | .error e => .error e
      | .ok (mji, w) => .ok ({ ret with medline_journal_info := some mji }, w)
    | "MeshHeadingList" =>
      .ok ({ ret with mesh_heading_list := meshHeadingListFrom n }, [])
    | "PersonalNameSubjectList" => .ok (ret, [])
    | "GeneralNote" => .ok (ret, [])
    | "OtherAbstract" => .ok (ret, [])
    | "SupplMeshList" => .ok (ret, [])
    | "CommentsCorrectionsList" => .ok (ret, [])
    | x => warnStep dbg ("Not covered in MedlineCitation: '" ++ x ++ "'") ret

/-- `MedlineCitation::new_from_xml`. -/
def new_from_xml (dbg : Bool) (node : XmlNode) : Dec MedlineCitation :=
  foldChildren (step dbg) init node.children

end MedlineCitation

structure ArticleId where
  id_type : Option String
  id : Option String
deriving Repr, DecidableEq

structure ArticleIdList where
  ids : List ArticleId
deriving Repr, DecidableEq

namespace ArticleIdList

def init : ArticleIdList := { ids := [] }

/-- One iteration of the child loop in `ArticleIdList::new_from_xml`. -/
def step (dbg : Bool) (ret : ArticleIdList) (n : XmlNode) : Dec ArticleIdList :=
  match n with
  | .textNode _ => .ok (ret, [])
  | .element tag _ _ =>
    match tag with
    | "ArticleId" =>
      .ok ({ ret with ids := ret.ids ++
        [{ id_type := n.attribute "IdType", id := n.text }] }, [])
    | x => warnStep dbg ("Not covered in ArticleIdList: '" ++ x ++ "'") ret

/-- `ArticleIdList::new_from_xml`. -/
def new_from_xml (dbg : Bool) (node : XmlNode) : Dec ArticleIdList :=
  foldChildren (step dbg) init node.children

end ArticleIdList

structure Reference where
  citation : Option String
  article_ids : Option ArticleIdList
deriving Repr, DecidableEq

namespace Reference

def init : Reference := { citation := none, article_ids := none }

/-- One iteration of the child loop in `Reference::new_from_xml`. -/
def step (dbg : Bool) (ret : Reference) (n : XmlNode) : Dec Reference :=
  match n with
  | .textNode _ => .ok (ret, [])
  | .element tag _ _ =>
    match tag with
    | "Citation" => .ok ({ ret with citation := n.text }, [])
    | "ArticleIdList" =>
      match ArticleIdList.new_from_xml dbg n with
      | .error e => .error e
      | .ok (al, w) => .ok ({ ret with article_ids := some al }, w)
    | x => warnStep dbg ("Not covered in Reference: '" ++ x ++ "'") ret

/-- `Reference::new_from_xml`. -/
def new_from_xml (dbg : Bool) (node : XmlNode) : Dec Reference :=
  foldChildren (step dbg) init node.children

end Reference

structure PubmedData where
  article_ids : Option ArticleIdList
  history : List PubMedDate
  references : List Reference
  publication_status : Option String
deriving Repr, DecidableEq

namespace PubmedData

def init : PubmedData :=
  { article_ids := none, history := [], references := [], publication_status := none }

/-- One iteration of the loop in `PubmedData::add_history_from_xml`. -/
def history_step (dbg : Bool) (ret : PubmedData) (n : XmlNode) : Dec PubmedData :=
  match n with
  | .textNode _ => .ok (ret, [])
  | .element tag _ _ =>
    match tag with
    | "PubMedPubDate" =>
      match PubMedDate.new_from_xml dbg n with
      | .error e => .error e
      | .ok (some date, w) => .ok ({ ret with history := ret.history ++ [date] }, w)
      | .ok (none, w) => .ok (ret, w)
    | x => warnStep dbg ("Not covered in PubmedData::add_history_from_xml: '" ++ x ++ "'") ret

/-- `PubmedData::add_history_from_xml`. -/
def add_history_from_xml (dbg : Bool) (ret : PubmedData) (node : XmlNode) : Dec PubmedData :=
  foldChildren (history_step dbg) ret node.children

/-- One iteration of the loop in `PubmedData::add_references_from_xml`.
Note that the unknown-tag arm uses `println!`, not `missing_tag_warning`:
it prints a diagnostic line and continues in both builds. -/
def references_step (dbg : Bool) (ret : PubmedData) (n : XmlNode) : Dec PubmedData :=
  match n with
  | .textNode _ => .ok (ret, [])
  | .element tag _ _ =>
    match tag with
    | "Reference" =>
      match Reference.new_from_xml dbg n with
      | .error e => .error e
      | .ok (r, w) => .ok ({ ret with references := ret.references ++ [r] }, w)
    | x =>
      .ok (ret, ["Not covered in PubmedData::add_references_from_xml: '" ++ x ++ "'"])

/-- `PubmedData::add_references_from_xml`. -/
def add_references_from_xml (dbg : Bool) (ret : PubmedData) (node : XmlNode) : Dec PubmedData :=
  foldChildren (references_step dbg) ret node.children

/-- One iteration of the child loop in `PubmedData::new_from_xml`. -/
def step (dbg : Bool) (ret : PubmedData) (n : XmlNode) : Dec PubmedData :=
  match n with
  | .textNode _ => .ok (ret, [])
  | .element tag _ _ =>
    match tag with
    | "ReferenceList" => add_references_from_xml dbg ret n
    | "ArticleIdList" =>
      match ArticleIdList.new_from_xml dbg n with
      | .error e => .error e
      | .ok (al, w) => .ok ({ ret with article_ids := some al }, w)
    | "PublicationStatus" => .ok ({ ret with publication_status := n.text }, [])
    | "History" => add_history_from_xml dbg ret n
    | x => warnStep dbg ("Not covered in PubmedData: '" ++ x ++ "'") ret

/-- `PubmedData::new_from_xml`. -/
def new_from_xml (dbg : Bool) (node : XmlNode) : Dec PubmedData :=
  foldChildren (step dbg) init node.children

end PubmedData

structure PubmedArticle where
  medline_citation : Option MedlineCitation
  pubmed_data : Option PubmedData
deriving Repr, DecidableEq

namespace PubmedArticle

def init : PubmedArticle := { medline_citation := none, pubmed_data := none }

/-- One iteration of the child loop in `PubmedArticle::new_from_xml`. -/
def step (dbg : Bool) (ret : PubmedArticle) (n : XmlNode) : Dec PubmedArticle :=
  match n with
  | .textNode _ => .ok (ret, [])
  | .element tag _ _ =>
    match tag with
    | "MedlineCitation" =>
      match MedlineCitation.new_from_xml dbg n with
      | .error e => .error e
      | .ok (mc, w) => .ok ({ ret with medline_citation := some mc }, w)
    | "PubmedData" =>
      match PubmedData.new_from_xml dbg n with
      | .error e => .error e
      | .ok (pd, w) => .ok ({ ret with pubmed_data := some pd }, w)
    | x => warnStep dbg ("Not covered in PubmedArticle: '" ++ x ++ "'") ret

/-- `PubmedArticle::new_from_xml`. -/
def new_from_xml (dbg : Bool) (root : XmlNode) : Dec PubmedArticle :=
  foldChildren (step dbg) init root.children

end PubmedArticle

/-- The child tags recognized by `Author::new_from_xml`. -/
def authorKnownTags : List String :=
  ["LastName", "ForeName", "CollectiveName", "Initials", "Suffix",
   "Identifier", "AffiliationInfo"]

/-- The twelve lowercased month abbreviations recognized by
`PubMedDate::parse_month_from_xml`. -/
def monthAbbrevs : List String :=
  ["jan", "feb", "mar", "apr", "may", "jun",
   "jul", "aug", "sep", "oct", "nov", "dec"]

/-! ### Generic lemmas about the child-dispatch fold -/

@[simp]
theorem warnStep_false {α : Type} (s : String) (a : α) :
    warnStep false s a = .ok (a, []) := rfl

@[simp]
theorem warnStep_true {α : Type} (s : String) (a : α) :
    warnStep true s a = .error s := rfl

/-- A child on which the step is a silent no-op can be inserted anywhere
without changing the result of the dispatch fold. -/
theorem foldChildren_skip {α : Type} (step : α → XmlNode → Dec α) (u : XmlNode)
    (hu : ∀ a, step a u = .ok (a, [])) :
    ∀ (xs : List XmlNode) (a : α) (ys : List XmlNode),
      foldChildren step a (xs ++ u :: ys) = foldChildren step a (xs ++ ys) := by
  intro xs
  induction xs with
  | nil =>
    intro a ys
    simp only [List.nil_append, foldChildren, hu a]
    cases h : foldChildren step a ys with
    | error e => rfl
    | ok p => rcases p with ⟨b, w⟩; simp
  | cons c cs ih =>
    intro a ys
    simp only [List.cons_append, foldChildren, List.append_eq, ih]

/-- If every step succeeds, the dispatch fold succeeds. -/
theorem foldChildren_total {α : Type} (step : α → XmlNode → Dec α)
    (h : ∀ a c, ∃ b w, step a c = .ok (b, w)) :
    ∀ (cs : List XmlNode) (a : α), ∃ b w, foldChildren step a cs = .ok (b, w) := by
  intro cs
  induction cs with
  | nil => intro a; exact ⟨a, [], rfl⟩
  | cons c cs ih =>
    intro a
    obtain ⟨a2, w, hw⟩ := h a c
    obtain ⟨b, w2, hw2⟩ := ih a2
    exact ⟨b, w ++ w2, by simp only [foldChildren, hw, hw2]⟩

/-- A property preserved by every successful step on a child of the list is
preserved by the dispatch fold. -/
theorem foldChildren_ok_inv {α : Type} (step : α → XmlNode → Dec α) (P : α → Prop) :
    ∀ (cs : List XmlNode),
      (∀ a c a2 w, c ∈ cs → P a → step a c = .ok (a2, w) → P a2) →
      ∀ (a b : α) (w : List String),
        P a → foldChildren step a cs = .ok (b, w) → P b := by
  intro cs
  induction cs with
  | nil =>
    intro _ a b w hPa h
    simp only [foldChildren] at h
    injection h with h1
    injection h1 with hb hw
    exact hb ▸ hPa
  | cons c cs ih =>
    intro hstep a b w hPa h
    simp only [foldChildren] at h
    cases hs : step a c with
    | error e => simp only [hs] at h; exact Except.noConfusion h
    | ok p =>
      rcases p with ⟨a2, w1⟩
      simp only [hs] at h
      cases hf : foldChildren step a2 cs with
      | error e => simp only [hf] at h; exact Except.noConfusion h
      | ok q =>
        rcases q with ⟨b2, w2⟩
        simp only [hf] at h
        injection h with h1
        injection h1 with hb hw
        have hPa2 := hstep a c a2 w1 (List.mem_cons_self c cs) hPa hs
        exact hb ▸ ih (fun a c2 a2 w hm => hstep a c2 a2 w (List.mem_cons_of_mem c hm)) a2 b2 w2 hPa2 hf

/-- A scalar field written by exactly the children matched by `p`: after a
successful dispatch fold it holds the text of the *last* matching child
(document order), the initial value if there is none. -/
theorem foldChildren_scalar {α : Type} (step : α → XmlNode → Dec α)
    (get : α → Option String) (p : XmlNode → Bool)
    (hstep : ∀ a c a2 w, step a c = .ok (a2, w) →
      get a2 = if p c then c.text else get a) :
    ∀ (cs : List XmlNode) (a b : α) (w : List String),
      foldChildren step a cs = .ok (b, w) →
      get b = (match (cs.filter p).getLast? with
               | some c => c.text
               | none => get a) := by
  intro cs
  induction cs with
  | nil =>
    intro a b w h
    simp only [foldChildren] at h
    injection h with h1
    injection h1 with hb hw
    simp [← hb]
  | cons c cs ih =>
    intro a b w h
    simp only [foldChildren] at h
    cases hs : step a c with
    | error e => simp only [hs] at h; exact Except.noConfusion h
    | ok p1 =>
      rcases p1 with ⟨a2, w1⟩
      simp only [hs] at h
      cases hf : foldChildren step a2 cs with
      | error e => simp only [hf] at h; exact Except.noConfusion h
      | ok q =>
        rcases q with ⟨b2, w2⟩
        simp only [hf] at h
        injection h with h1
        injection h1 with hb hw
        subst hb
        have hga2 := hstep a c a2 w1 hs
        have hih := ih a2 b2 w2 hf
        by_cases hp : p c = true
        · rw [hp, if_pos rfl] at hga2
          rw [List.filter_cons_of_pos hp]
          cases hfc : cs.filter p with
          | nil => rw [hfc, hga2] at hih; simpa using hih
          | cons x xs =>
            rw [hfc] at hih
            rw [List.getLast?_cons_cons]
            exact hih
        · have hp0 : p c = false := by simpa using hp
          simp only [hp0, Bool.false_eq_true, if_false] at hga2
          rw [List.filter_cons_of_neg (by simp [hp0])]
          rw [hga2] at hih
          exact hih

/-- A list field appended to by exactly the children matched by `p`: after
a successful dispatch fold it holds the initial list followed by the image
of the matching children, in document order. -/
theorem foldChildren_list_acc {α β : Type} (step : α → XmlNode → Dec α)
    (get : α → List β) (p : XmlNode → Bool) (f : XmlNode → β)
    (hstep : ∀ a c a2 w, step a c = .ok (a2, w) →
      get a2 = if p c then get a ++ [f c] else get a) :
    ∀ (cs : List XmlNode) (a b : α) (w : List String),
      foldChildren step a cs = .ok (b, w) →
      get b = get a ++ (cs.filter p).map f := by
  intro cs
  induction cs with
  | nil =>
    intro a b w h
    simp only [foldChildren] at h
    injection h with h1
    injection h1 with hb hw
    simp [← hb]
  | cons c cs ih =>
    intro a b w h
    simp only [foldChildren] at h
    cases hs : step a c with
    | error e => simp only [hs] at h; exact Except.noConfusion h
    | ok p1 =>
      rcases p1 with ⟨a2, w1⟩
      simp only [hs] at h
      cases hf : foldChildren step a2 cs with
      | error e => simp only [hf] at h; exact Except.noConfusion h
      | ok q =>
        rcases q with ⟨b2, w2⟩
        simp only [hf] at h
        injection h with h1
        injection h1 with hb hw
        subst hb
        have hga2 := hstep a c a2 w1 hs
        have hih := ih a2 b2 w2 hf
        by_cases hp : p c = true
        · rw [hp, if_pos rfl] at hga2
          rw [List.filter_cons_of_pos hp, hih, hga2]
          simp
        · have hp0 : p c = false := by simpa using hp
          simp only [hp0, Bool.false_eq_true, if_false] at hga2
          rw [List.filter_cons_of_neg (by simp [hp0]), hih, hga2]

/-- If decoding every list element succeeds, decoding the list succeeds. -/
theorem decMapList_total {α : Type} (f : XmlNode → Dec α)
    (h : ∀ c, ∃ b w, f c = .ok (b, w)) :
    ∀ (cs : List XmlNode), ∃ bs w, decMapList f cs = .ok (bs, w) := by
  intro cs
  induction cs with
  | nil => exact ⟨[], [], rfl⟩
  | cons c cs ih =>
    obtain ⟨b, w, hw⟩ := h c
    obtain ⟨bs, w2, hw2⟩ := ih
    exact ⟨b :: bs, w ++ w2, by simp only [decMapList, hw, hw2]⟩

/-! ### Facts about the numeric parsers and the date decoder -/

theorem warnStep_ok {α : Type} {dbg : Bool} {s : String} {a a2 : α} {w : List String}
    (h : warnStep dbg s a = .ok (a2, w)) : a2 = a := by
  cases dbg
  · injection h with h1
    injection h1 with hb hw
    exact hb.symm
  · exact Except.noConfusion h

/-- The unsigned parser respects its range bound. -/
theorem parse_unsigned_lt (bound : Nat) (s : String) (v : Nat)
    (h : parse_unsigned bound s = some v) : v < bound := by
  unfold parse_unsigned at h
  cases hd : digitsVal (stripPlus s.data) with
  | none => simp only [hd] at h; exact Option.noConfusion h
  | some v2 =>
    simp only [hd] at h
    by_cases hv : v2 < bound
    · rw [if_pos hv] at h
      injection h with hv2
      exact hv2 ▸ hv
    · rw [if_neg hv] at h
      exact Option.noConfusion h

/-- Month text parsing always yields a value below 256 (the `u8` range). -/
theorem parse_month_text_lt (t : String) : PubMedDate.parse_month_text t < 256 := by
  unfold PubMedDate.parse_month_text
  split
  all_goals try decide
  cases hp : parse_unsigned 256 (strLower t) with
  | none => simp [hp]
  | some v => simp only [hp, Option.getD_some]; exact parse_unsigned_lt 256 (strLower t) v hp

/-- `PubMedDate::parse_month_from_xml` always yields a value below 256. -/
theorem parse_month_from_xml_lt (n : XmlNode) : PubMedDate.parse_month_from_xml n < 256 := by
  unfold PubMedDate.parse_month_from_xml
  split
  · exact parse_month_text_lt _
  · decide

/-- `precision` is zero exactly when the year is absent. -/
theorem PubMedDate.precision_eq_zero_iff (d : PubMedDate) :
    d.precision = 0 ↔ d.year = 0 := by
  unfold PubMedDate.precision
  split_ifs <;> simp_all

/-- In a release build every step of the date child loop succeeds. -/
theorem PubMedDate_step_total (a : PubMedDate) (c : XmlNode) :
    ∃ b w, PubMedDate.step false a c = .ok (b, w) := by
  cases c with
  | textNode s => exact ⟨a, [], rfl⟩
  | element t attrs cs =>
    simp only [PubMedDate.step]
    split
    all_goals exact ⟨_, _, rfl⟩

/-- In a release build `PubMedDate::new_from_xml` never fails. -/
theorem PubMedDate_release_total (n : XmlNode) :
    ∃ b w, PubMedDate.new_from_xml false n = .ok (b, w) := by
  unfold PubMedDate.new_from_xml
  obtain ⟨b, w, hb⟩ :=
    foldChildren_total (PubMedDate.step false) PubMedDate_step_total n.children
      (PubMedDate.init n)
  rw [hb]
  exact ⟨_, _, rfl⟩

/-- How one step of the date child loop changes the `month` field. -/
theorem PubMedDate.step_month (dbg : Bool) (a : PubMedDate) (c : XmlNode)
    (a2 : PubMedDate) (w : List String) (h : PubMedDate.step dbg a c = .ok (a2, w)) :
    a2.month =
      if c.is_element && (c.tag_name == "Month")
      then PubMedDate.parse_month_from_xml c
      else a.month := by
  cases c with
  | textNode s =>
    simp only [PubMedDate.step] at h
    injection h with h1
    injection h1 with hb hw
    subst hb
    simp [XmlNode.is_element]
  | element t attrs cs =>
    simp only [PubMedDate.step] at h
    split at h
    all_goals
      try (injection h with h1; injection h1 with hb hw; subst hb;
           simp [XmlNode.is_element, XmlNode.tag_name])
    rename_i x hne1 hne2 hne3 hne4 hne5 hne6 hne7
    have hb := warnStep_ok h
    subst hb
    simp only [XmlNode.is_element, XmlNode.tag_name, Bool.true_and, beq_iff_eq]
    rw [if_neg hne3]

/-- How one step of the date child loop changes the `year` field. -/
theorem PubMedDate.step_year (dbg : Bool) (a : PubMedDate) (c : XmlNode)
    (a2 : PubMedDate) (w : List String) (h : PubMedDate.step dbg a c = .ok (a2, w)) :
    a2.year =
      if c.is_element && (c.tag_name == "Year")
      then (match c.text with
            | some v => (parse_unsigned (2 ^ 32) v).getD 0
            | none => 0)
      else a.year := by
  cases c with
  | textNode s =>
    simp only [PubMedDate.step] at h
    injection h with h1
    injection h1 with hb hw
    subst hb
    simp [XmlNode.is_element]
  | element t attrs cs =>
    simp only [PubMedDate.step] at h
    split at h
    all_goals
      try (injection h with h1; injection h1 with hb hw; subst hb;
           simp [XmlNode.is_element, XmlNode.tag_name])
    rename_i x hne1 hne2 hne3 hne4 hne5 hne6 hne7
    have hb := warnStep_ok h
    subst hb
    simp only [XmlNode.is_element, XmlNode.tag_name, Bool.true_and, beq_iff_eq]
    rw [if_neg hne2]

/-! ### Release-build totality and field characterizations per entity -/

theorem AffiliationInfo_step_total (a : AffiliationInfo) (c : XmlNode) :
    ∃ b w, AffiliationInfo.step false a c = .ok (b, w) := by
  cases c with
  | textNode s => exact ⟨a, [], rfl⟩
  | element t attrs cs =>
    simp only [AffiliationInfo.step]
    split
    all_goals exact ⟨_, _, rfl⟩

theorem AffiliationInfo_release_total (n : XmlNode) :
    ∃ b w, AffiliationInfo.new_from_xml false n = .ok (b, w) :=
  foldChildren_total (AffiliationInfo.step false) AffiliationInfo_step_total
    n.children AffiliationInfo.init

theorem Author_step_total (a : Author) (c : XmlNode) :
    ∃ b w, Author.step false a c = .ok (b, w) := by
  cases c with
  | textNode s => exact ⟨a, [], rfl⟩
  | element t attrs cs =>
    simp only [Author.step]
    split
    all_goals try exact ⟨_, _, rfl⟩
    obtain ⟨af, w, haf⟩ :=
      AffiliationInfo_release_total (XmlNode.element "AffiliationInfo" attrs cs)
    rw [haf]
    exact ⟨_, _, rfl⟩

theorem Author_release_total (n : XmlNode) :
    ∃ b w, Author.new_from_xml false n = .ok (b, w) :=
  foldChildren_total (Author.step false) Author_step_total n.children (Author.init n)

/-- An element child whose tag is not in the recognized set falls into the
default arm of the `Author` dispatch. -/
theorem Author.step_unknown (dbg : Bool) (a : Author) (t : String)
    (attrs : List (String × String)) (cs : List XmlNode) (h : t ∉ authorKnownTags) :
    Author.step dbg a (.element t attrs cs) =
      warnStep dbg ("Not covered in Author: '" ++ t ++ "'") a := by
  simp only [Author.step]
  split
  all_goals first
    | rfl
    | exact absurd (by decide) h

/-- How one step of the `Author` dispatch changes the `identifiers` list. -/
theorem Author.step_identifiers (dbg : Bool) (a : Author) (c : XmlNode) (a2 : Author)
    (w : List String) (h : Author.step dbg a c = .ok (a2, w)) :
    a2.identifiers =
      if c.is_element && (c.tag_name == "Identifier")
      then a.identifiers ++ [Identifier.new_from_xml c]
      else a.identifiers := by
  cases c with
  | textNode s =>
    simp only [Author.step] at h
    injection h with h1
    injection h1 with hb hw
    subst hb
    simp [XmlNode.is_element]
  | element t attrs cs =>
    simp only [Author.step] at h
    split at h
    all_goals
      try (injection h with h1; injection h1 with hb hw; subst hb;
           simp [XmlNode.is_element, XmlNode.tag_name])
    · cases haf : AffiliationInfo.new_from_xml dbg (XmlNode.element "AffiliationInfo" attrs cs) with
      | error e => simp only [haf] at h; exact Except.noConfusion h
      | ok q =>
        rcases q with ⟨af, w1⟩
        simp only [haf] at h
        injection h with h1
        injection h1 with hb hw
        subst hb
        simp [XmlNode.is_element, XmlNode.tag_name]
    · rename_i x hne1 hne2 hne3 hne4 hne5 hne6 hne7
      have hb := warnStep_ok h
      subst hb
      simp only [XmlNode.is_element, XmlNode.tag_name, Bool.true_and, beq_iff_eq]
      rw [if_neg hne6]

/-- How one step of the `Author` dispatch changes the `last_name` field. -/
theorem Author.step_last_name (dbg : Bool) (a : Author) (c : XmlNode) (a2 : Author)
    (w : List String) (h : Author.step dbg a c = .ok (a2, w)) :
    a2.last_name =
      if c.is_element && (c.tag_name == "LastName")
      then c.text
      else a.last_name := by
  cases c with
  | textNode s =>
    simp only [Author.step] at h
    injection h with h1
    injection h1 with hb hw
    subst hb
    simp [XmlNode.is_element]
  | element t attrs cs =>
    simp only [Author.step] at h
    split at h
    all_goals
      try (injection h with h1; injection h1 with hb hw; subst hb;
           simp [XmlNode.is_element, XmlNode.tag_name])
    · cases haf : AffiliationInfo.new_from_xml dbg (XmlNode.element "AffiliationInfo" attrs cs) with
      | error e => simp only [haf] at h; exact Except.noConfusion h
      | ok q =>
        rcases q with ⟨af, w1⟩
        simp only [haf] at h
        injection h with h1
        injection h1 with hb hw
        subst hb
        simp [XmlNode.is_element, XmlNode.tag_name]
    · rename_i x hne1 hne2 hne3 hne4 hne5 hne6 hne7
      have hb := warnStep_ok h
      subst hb
      simp only [XmlNode.is_element, XmlNode.tag_name, Bool.true_and, beq_iff_eq]
      rw [if_neg hne1]

theorem AuthorList_release_total (n : XmlNode) :
    ∃ b w, AuthorList.new_from_xml false n = .ok (b, w) := by
  unfold AuthorList.new_from_xml
  obtain ⟨as2, w, ha⟩ :=
    decMapList_total (Author.new_from_xml false) Author_release_total
      (n.descendants.filter (fun c => c.is_element && c.tag_name == "Author"))
  rw [ha]
  exact ⟨_, _, rfl⟩

theorem JournalIssue_step_total (a : JournalIssue) (c : XmlNode) :
    ∃ b w, JournalIssue.step false a c = .ok (b, w) := by
  cases c with
  | textNode s => exact ⟨a, [], rfl⟩
  | element t attrs cs =>
    simp only [JournalIssue.step]
    split
    all_goals try exact ⟨_, _, rfl⟩
    obtain ⟨d, w, hd⟩ := PubMedDate_release_total (XmlNode.element "PubDate" attrs cs)
    rw [hd]
    exact ⟨_, _, rfl⟩

theorem JournalIssue_release_total (n : XmlNode) :
    ∃ b w, JournalIssue.new_from_xml false n = .ok (b, w) :=
  foldChildren_total (JournalIssue.step false) JournalIssue_step_total
    n.children (JournalIssue.init n)

theorem Journal_step_total (a : Journal) (c : XmlNode) :
    ∃ b w, Journal.step false a c = .ok (b, w) := by
  cases c with
  | textNode s => exact ⟨a, [], rfl⟩
  | element t attrs cs =>
    simp only [Journal.step]
    split
    all_goals try exact ⟨_, _, rfl⟩
    obtain ⟨ji, w, hji⟩ := JournalIssue_release_total (XmlNode.element "JournalIssue" attrs cs)
    rw [hji]
    exact ⟨_, _, rfl⟩

theorem Journal_release_total (n : XmlNode) :
    ∃ b w, Journal.new_from_xml false n = .ok (b, w) :=
  foldChildren_total (Journal.step false) Journal_step_total n.children Journal.init

/-- How one step of the `Journal` dispatch changes the `title` field. -/
theorem Journal.step_title (dbg : Bool) (a : Journal) (c : XmlNode) (a2 : Journal)
    (w : List String) (h : Journal.step dbg a c = .ok (a2, w)) :
    a2.title =
      if c.is_element && (c.tag_name == "Title")
      then c.text
      else a.title := by
  cases c with
  | textNode s =>
    simp only [Journal.step] at h
    injection h with h1
    injection h1 with hb hw
    subst hb
    simp [XmlNode.is_element]
  | element t attrs cs =>
    simp only [Journal.step] at h
    split at h
    all_goals
      try (injection h with h1; injection h1 with hb hw; subst hb;
           simp [XmlNode.is_element, XmlNode.tag_name])
    · cases hji : JournalIssue.new_from_xml dbg (XmlNode.element "JournalIssue" attrs cs) with
      | error e => simp only [hji] at h; exact Except.noConfusion h
      | ok q =>
        rcases q with ⟨ji, w1⟩
        simp only [hji] at h
        injection h with h1
        injection h1 with hb hw
        subst hb
        simp [XmlNode.is_element, XmlNode.tag_name]
    · rename_i x hne1 hne2 hne3 hne4
      have hb := warnStep_ok h
      subst hb
      simp only [XmlNode.is_element, XmlNode.tag_name, Bool.true_and, beq_iff_eq]
      rw [if_neg hne3]

theorem Grant_step_total (a : Grant) (c : XmlNode) :
    ∃ b w, Grant.step false a c = .ok (b, w) := by
  cases c with
  | textNode s => exact ⟨a, [], rfl⟩
  | element t attrs cs =>
    simp only [Grant.step]
    split
    all_goals exact ⟨_, _, rfl⟩

theorem Grant_release_total (n : XmlNode) :
    ∃ b w, Grant.new_from_xml false n = .ok (b, w) :=
  foldChildren_total (Grant.step false) Grant_step_total n.children Grant.init

theorem GrantList_release_total (n : XmlNode) :
    ∃ b w, GrantList.new_from_xml false n = .ok (b, w) := by
  unfold GrantList.new_from_xml
  obtain ⟨gs, w, hg⟩ :=
    decMapList_total (Grant.new_from_xml false) Grant_release_total
      (n.descendants.filter (fun c => c.is_element && c.tag_name == "Grant"))
  rw [hg]
  exact ⟨_, _, rfl⟩

theorem KeywordList_step_total (a : KeywordList) (c : XmlNode) :
    ∃ b w, KeywordList.step false a c = .ok (b, w) := by
  cases c with
  | textNode s => exact ⟨a, [], rfl⟩
  | element t attrs cs =>
    simp only [KeywordList.step]
    split
    all_goals exact ⟨_, _, rfl⟩

theorem KeywordList_release_total (n : XmlNode) :
    ∃ b w, KeywordList.new_from_xml false n = .ok (b, w) :=
  foldChildren_total (KeywordList.step false) KeywordList_step_total
    n.children (KeywordList.init n)

theorem Chemical_step_total (a : Chemical) (c : XmlNode) :
    ∃ b w, Chemical.step false a c = .ok (b, w) := by
  cases c with
  | textNode s => exact ⟨a, [], rfl⟩
  | element t attrs cs =>
    simp only [Chemical.step]
    split
    all_goals exact ⟨_, _, rfl⟩

theorem Chemical_release_total (n : XmlNode) :
    ∃ b w, Chemical.new_from_xml false n = .ok (b, w) :=
  foldChildren_total (Chemical.step false) Chemical_step_total n.children Chemical.init

theorem MedlineJournalInfo_step_total (a : MedlineJournalInfo) (c : XmlNode) :
    ∃ b w, MedlineJournalInfo.step false a c = .ok (b, w) := by
  cases c with
  | textNode s => exact ⟨a, [], rfl⟩
  | element t attrs cs =>
    simp only [MedlineJournalInfo.step]
    split
    all_goals exact ⟨_, _, rfl⟩

theorem MedlineJournalInfo_release_total (n : XmlNode) :
    ∃ b w, MedlineJournalInfo.new_from_xml false n = .ok (b, w) :=
  foldChildren_total (MedlineJournalInfo.step false) MedlineJournalInfo_step_total
    n.children MedlineJournalInfo.init

theorem Article.pagination_step_total (a : Article) (c : XmlNode) :
    ∃ b w, Article.pagination_step false a c = .ok (b, w) := by
  cases c with
  | textNode s => exact ⟨a, [], rfl⟩
  | element t attrs cs =>
    simp only [Article.pagination_step]
    split
    all_goals exact ⟨_, _, rfl⟩

theorem Article_step_total (a : Article) (c : XmlNode) :
    ∃ b w, Article.step false a c = .ok (b, w) := by
  cases c with
  | textNode s => exact ⟨a, [], rfl⟩
  | element t attrs cs =>
    simp only [Article.step]
    split
    all_goals try exact ⟨_, _, rfl⟩
    · obtain ⟨j, w, hj⟩ := Journal_release_total (XmlNode.element "Journal" attrs cs)
      rw [hj]
      exact ⟨_, _, rfl⟩
    · exact foldChildren_total (Article.pagination_step false) Article.pagination_step_total
        (XmlNode.element "Pagination" attrs cs).children a
    · obtain ⟨al, w, hal⟩ := AuthorList_release_total (XmlNode.element "AuthorList" attrs cs)
      rw [hal]
      exact ⟨_, _, rfl⟩
    · obtain ⟨gl, w, hgl⟩ := GrantList_release_total (XmlNode.element "GrantList" attrs cs)
      rw [hgl]
      exact ⟨_, _, rfl⟩
    · obtain ⟨d, w, hd⟩ := PubMedDate_release_total (XmlNode.element "ArticleDate" attrs cs)
      rw [hd]
      rcases d with _ | d2 <;> exact ⟨_, _, rfl⟩

theorem Article_release_total (n : XmlNode) :
    ∃ b w, Article.new_from_xml false n = .ok (b, w) :=
  foldChildren_total (Article.step false) Article_step_total n.children (Article.init n)

theorem MedlineCitation.chemical_list_step_total (a : MedlineCitation) (c : XmlNode) :
    ∃ b w, MedlineCitation.chemical_list_step false a c = .ok (b, w) := by
  cases c with
  | textNode s => exact ⟨a, [], rfl⟩
  | element t attrs cs =>
    simp only [MedlineCitation.chemical_list_step]
    split
    all_goals try exact ⟨_, _, rfl⟩
    obtain ⟨x, w, hx⟩ := Chemical_release_total (XmlNode.element "Chemical" attrs cs)
    rw [hx]
    exact ⟨_, _, rfl⟩

theorem MedlineCitation.investigator_list_step_total (a : MedlineCitation) (c : XmlNode) :
    ∃ b w, MedlineCitation.investigator_list_step false a c = .ok (b, w) := by
  cases c with
  | textNode s => exact ⟨a, [], rfl⟩
  | element t attrs cs =>
    simp only [MedlineCitation.investigator_list_step]
    split
    all_goals try exact ⟨_, _, rfl⟩
    obtain ⟨x, w, hx⟩ := Author_release_total (XmlNode.element "Investigator" attrs cs)
    rw [hx]
    exact ⟨_, _, rfl⟩

theorem MedlineCitation.gene_symbol_list_step_total (a : MedlineCitation) (c : XmlNode) :
    ∃ b w, MedlineCitation.gene_symbol_list_step false a c = .ok (b, w) := by
  cases c with
  | textNode s => exact ⟨a, [], rfl⟩
  | element t attrs cs =>
    simp only [MedlineCitation.gene_symbol_list_step]
    split
    all_goals exact ⟨_, _, rfl⟩

theorem MedlineCitation_step_total (a : MedlineCitation) (c : XmlNode) :
    ∃ b w, MedlineCitation.step false a c = .ok (b, w) := by
  cases c with
  | textNode s => exact ⟨a, [], rfl⟩
  | element t attrs cs =>
    simp only [MedlineCitation.step]
    split
    all_goals try exact ⟨_, _, rfl⟩
    · cases ht : (XmlNode.element "PMID" attrs cs).text <;> exact ⟨_, _, rfl⟩
    · obtain ⟨kl, w, hkl⟩ := KeywordList_release_total (XmlNode.element "KeywordList" attrs cs)
      rw [hkl]
      exact ⟨_, _, rfl⟩
    · exact foldChildren_total (MedlineCitation.chemical_list_step false)
        MedlineCitation.chemical_list_step_total
        (XmlNode.element "ChemicalList" attrs cs).children a
    · exact foldChildren_total (MedlineCitation.gene_symbol_list_step false)
        MedlineCitation.gene_symbol_list_step_total
        (XmlNode.element "GeneSymbolList" attrs cs).children a
    · exact foldChildren_total (MedlineCitation.investigator_list_step false)
        MedlineCitation.investigator_list_step_total
        (XmlNode.element "InvestigatorList" attrs cs).children a
    · cases ht : (XmlNode.element "CitationSubset" attrs cs).text <;> exact ⟨_, _, rfl⟩
    · obtain ⟨d, w, hd⟩ := PubMedDate_release_total (XmlNode.element "DateCompleted" attrs cs)
      rw [hd]
      exact ⟨_, _, rfl⟩
    · obtain ⟨d, w, hd⟩ := PubMedDate_release_total (XmlNode.element "DateRevised" attrs cs)
      rw [hd]
      exact ⟨_, _, rfl⟩
    · obtain ⟨x, w, hx⟩ := Article_release_total (XmlNode.element "Article" attrs cs)
      rw [hx]
      exact ⟨_, _, rfl⟩
    · obtain ⟨x, w, hx⟩ :=
        MedlineJournalInfo_release_total (XmlNode.element "MedlineJournalInfo" attrs cs)
      rw [hx]
      exact ⟨_, _, rfl⟩

theorem MedlineCitation_release_total (n : XmlNode) :
    ∃ b w, MedlineCitation.new_from_xml false n = .ok (b, w) :=
  foldChildren_total (MedlineCitation.step false) MedlineCitation_step_total
    n.children MedlineCitation.init

/-- A `MeshHeading` node without a `DescriptorName` element descendant
decodes to `none`. -/
theorem MeshHeading.new_from_xml_none (node : XmlNode)
    (hd : node.descendants.filter
      (fun c => c.is_element && c.tag_name == "DescriptorName") = []) :
    MeshHeading.new_from_xml node = none := by
  unfold MeshHeading.new_from_xml
  rw [hd]
  rfl

/-! ### The claims -/

/-- C1 (counterexample): the claim says the strict/lenient policy for
unrecognized child tags is a caller-supplied runtime setting and never a
build-time switch, so decoding would not depend on the build flag.  In the
code the policy is `#[cfg(debug_assertions)]` conditional compilation: on
the same input, the debug build and the release build of
`Author::new_from_xml` produce different outcomes. -/
theorem C1_cex_policy_depends_on_build :
    Author.new_from_xml true
        (.element "Author" [("ValidYN", "Y")]
          [.element "LastName" [] [.textNode "Doe"], .element "Banana" [] []]) ≠
      Author.new_from_xml false
        (.element "Author" [("ValidYN", "Y")]
          [.element "LastName" [] [.textNode "Doe"], .element "Banana" [] []]) := by
  decide

/-- C1 (amended): the strict/lenient policy for unrecognized child tags is
selected by the build-time `debug_assertions` flag, not by any runtime
setting: the release build never fails on any input, while the debug build
turns an unrecognized child tag into a terminal failure naming the tag and
its containing entity; one binary runs exactly one policy. -/
theorem C1_amended_policy_is_build_time :
    (∀ n : XmlNode, ∃ a w, Author.new_from_xml false n = .ok (a, w))
  ∧ Author.new_from_xml true
      (.element "Author" [("ValidYN", "Y")]
        [.element "LastName" [] [.textNode "Doe"], .element "Banana" [] []]) =
      .error "Not covered in Author: 'Banana'"
  ∧ Author.new_from_xml false
      (.element "Author" [("ValidYN", "Y")]
        [.element "LastName" [] [.textNode "Doe"], .element "Banana" [] []]) =
      .ok ({ last_name := some "Doe", fore_name := none, initials := none,
             suffix := none, collective_name := none, affiliation_info := none,
             identifiers := [], valid := true }, []) :=
  ⟨fun n => Author_release_total n, by decide, by decide⟩

/-- C2 (counterexample): the claim says that in permissive (release) mode
the decoder emits a non-fatal diagnostic for an unrecognized child tag.
In the release build `missing_tag_warning` has an empty body: decoding an
`Author` with an unrecognized child succeeds with an *empty* diagnostic
list — nothing is emitted. -/
theorem C2_cex_release_emits_no_diagnostic :
    Author.new_from_xml false
        (.element "Author" []
          [.element "Wibble" [] [], .element "LastName" [] [.textNode "Roe"]]) =
      .ok ({ last_name := some "Roe", fore_name := none, initials := none,
             suffix := none, collective_name := none, affiliation_info := none,
             identifiers := [], valid := false }, ([] : List String)) := by
  decide

/-- C2 (amended): for an entity decode (`Author`) and a child element whose
tag is outside the recognized set: in the release (permissive) build the
decoder *silently* drops the unrecognized subtree — no diagnostic is
emitted — and decodes all recognized sibling fields exactly as if the
unrecognized child were absent; in the debug (strict) build the same input
escalates to a terminal failure naming the offending tag and its
containing entity. -/
theorem C2_amended_unknown_tag_policy (ptag : String) (pattrs : List (String × String))
    (xs ys : List XmlNode) (tg : String) (ats : List (String × String))
    (cs : List XmlNode) (h : tg ∉ authorKnownTags) :
    (Author.new_from_xml false
        (.element ptag pattrs (xs ++ (XmlNode.element tg ats cs) :: ys)) =
      Author.new_from_xml false (.element ptag pattrs (xs ++ ys)))
  ∧ (Author.new_from_xml true
        (.element ptag pattrs ((XmlNode.element tg ats cs) :: ys)) =
      .error ("Not covered in Author: '" ++ tg ++ "'")) := by
  have hu : ∀ a2 : Author,
      Author.step false a2 (XmlNode.element tg ats cs) = .ok (a2, []) := by
    intro a2
    rw [Author.step_unknown false a2 tg ats cs h]
    exact warnStep_false _ _
  constructor
  · exact foldChildren_skip (Author.step false) (XmlNode.element tg ats cs) hu xs
      (Author.init (XmlNode.element ptag pattrs (xs ++ (XmlNode.element tg ats cs) :: ys))) ys
  · unfold Author.new_from_xml
    simp only [XmlNode.children, foldChildren,
      Author.step_unknown true _ tg ats cs h, warnStep_true]

/-- C2 (witness for the amended claim): a concrete `Author` element with an
unrecognized `Banana` child between two recognized children. -/
theorem C2_amended_witness :
    (Author.new_from_xml false
        (.element "Author" []
          [.element "LastName" [] [.textNode "A"],
           .element "Banana" [] [],
           .element "ForeName" [] [.textNode "B"]]) =
      Author.new_from_xml false
        (.element "Author" []
          [.element "LastName" [] [.textNode "A"],
           .element "ForeName" [] [.textNode "B"]]))
  ∧ (Author.new_from_xml true
        (.element "Author" []
          [.element "Banana" [] [],
           .element "ForeName" [] [.textNode "B"]]) =
      .error "Not covered in Author: 'Banana'") :=
  C2_amended_unknown_tag_policy "Author" []
    [XmlNode.element "LastName" [] [XmlNode.textNode "A"]]
    [XmlNode.element "ForeName" [] [XmlNode.textNode "B"]]
    "Banana" [] [] (by decide)

/-- C3: the derived precision of a Partial Date is a pure function of which
of {year, month, day, hour, minute} are present: year-only gives 9,
year+month gives 10, year+month+day gives 11, adding hour gives 12, adding
minute gives 13; and any two dates with the same presence pattern have the
same precision. -/
theorem C3_precision_from_presence (d e : PubMedDate) :
    (d.year ≠ 0 → d.month = 0 → d.day = 0 → d.hour = -1 → d.minute = -1 →
      d.precision = 9)
  ∧ (d.year ≠ 0 → d.month ≠ 0 → d.day = 0 → d.hour = -1 → d.minute = -1 →
      d.precision = 10)
  ∧ (d.year ≠ 0 → d.month ≠ 0 → d.day ≠ 0 → d.hour = -1 → d.minute = -1 →
      d.precision = 11)
  ∧ (d.year ≠ 0 → d.month ≠ 0 → d.day ≠ 0 → d.hour ≠ -1 → d.minute = -1 →
      d.precision = 12)
  ∧ (d.year ≠ 0 → d.month ≠ 0 → d.day ≠ 0 → d.hour ≠ -1 → d.minute ≠ -1 →
      d.precision = 13)
  ∧ ((d.year = 0 ↔ e.year = 0) → (d.month = 0 ↔ e.month = 0) →
     (d.day = 0 ↔ e.day = 0) → (d.hour = -1 ↔ e.hour = -1) →
     (d.minute = -1 ↔ e.minute = -1) → d.precision = e.precision) := by
  unfold PubMedDate.precision
  refine ⟨?_, ?_, ?_, ?_, ?_, ?_⟩ <;> intros <;> split_ifs <;> simp_all

/-- C3 (witness): a date with year 1961 and month 5 only has precision 10. -/
theorem C3_witness :
    ({ year := 1961, month := 5, day := 0, hour := -1, minute := -1,
       date_type := none, pub_status := none } : PubMedDate).precision = 10 :=
  (C3_precision_from_presence
      { year := 1961, month := 5, day := 0, hour := -1, minute := -1,
        date_type := none, pub_status := none }
      { year := 1961, month := 5, day := 0, hour := -1, minute := -1,
        date_type := none, pub_status := none }).2.1
    (by decide) (by decide) (by decide) (by decide) (by decide)

/-- C4: month parsing lowercases its input and accepts the twelve
three-letter English abbreviations (mapped to 1–12) and bare numeric
strings (kept verbatim); any other text parses to 0 without failing; in
particular "May", "MAY", "may" and "5" all decode to month 5. -/
theorem C4_month_parsing (t : String) (v : Nat) :
    (strLower t = "jan" → PubMedDate.parse_month_text t = 1)
  ∧ (strLower t = "feb" → PubMedDate.parse_month_text t = 2)
  ∧ (strLower t = "mar" → PubMedDate.parse_month_text t = 3)
  ∧ (strLower t = "apr" → PubMedDate.parse_month_text t = 4)
  ∧ (strLower t = "may" → PubMedDate.parse_month_text t = 5)
  ∧ (strLower t = "jun" → PubMedDate.parse_month_text t = 6)
  ∧ (strLower t = "jul" → PubMedDate.parse_month_text t = 7)
  ∧ (strLower t = "aug" → PubMedDate.parse_month_text t = 8)
  ∧ (strLower t = "sep" → PubMedDate.parse_month_text t = 9)
  ∧ (strLower t = "oct" → PubMedDate.parse_month_text t = 10)
  ∧ (strLower t = "nov" → PubMedDate.parse_month_text t = 11)
  ∧ (strLower t = "dec" → PubMedDate.parse_month_text t = 12)
  ∧ (strLower t ∉ monthAbbrevs → parse_unsigned 256 (strLower t) = some v →
      PubMedDate.parse_month_text t = v)
  ∧ (strLower t ∉ monthAbbrevs → parse_unsigned 256 (strLower t) = none →
      PubMedDate.parse_month_text t = 0)
  ∧ (PubMedDate.parse_month_from_xml (.element "Month" [] [.textNode "May"]) = 5
     ∧ PubMedDate.parse_month_from_xml (.element "Month" [] [.textNode "MAY"]) = 5
     ∧ PubMedDate.parse_month_from_xml (.element "Month" [] [.textNode "may"]) = 5
     ∧ PubMedDate.parse_month_from_xml (.element "Month" [] [.textNode "5"]) = 5) := by
  refine ⟨?_, ?_, ?_, ?_, ?_, ?_, ?_, ?_, ?_, ?_, ?_, ?_, ?_, ?_, by decide⟩
  all_goals
    first
      | (intro h
         unfold PubMedDate.parse_month_text
         rw [h]
         decide)
      | (intro hmem hval
         unfold PubMedDate.parse_month_text
         split <;>
           first
             | (rename_i heq
                exact absurd (show strLower t ∈ monthAbbrevs by rw [heq]; decide) hmem)
             | simp [hval])

/-- C4 (witness): a mixed-case abbreviation, a bare numeric string and an
unrecognized season name. -/
theorem C4_witness :
    PubMedDate.parse_month_text "OcT" = 10
  ∧ PubMedDate.parse_month_text "07" = 7
  ∧ PubMedDate.parse_month_text "Winter" = 0 :=
  ⟨(C4_month_parsing "OcT" 0).2.2.2.2.2.2.2.2.2.1 (by decide),
   (C4_month_parsing "07" 7).2.2.2.2.2.2.2.2.2.2.2.2.1 (by decide) (by decide),
   (C4_month_parsing "Winter" 0).2.2.2.2.2.2.2.2.2.2.2.2.2.1 (by decide) (by decide)⟩

/-- C5 (counterexample): the claim says a decoded month is always 0 or in
1–12.  A `Month` element with the bare numeric text "13" decodes to a
materialized date whose month is 13, outside that range. -/
theorem C5_cex_month_13 :
    PubMedDate.new_from_xml false
        (.element "PubDate" []
          [.element "Year" [] [.textNode "2000"],
           .element "Month" [] [.textNode "13"]]) =
      .ok (some { year := 2000, month := 13, day := 0, hour := -1, minute := -1,
                  date_type := none, pub_status := none }, [])
  ∧ ¬(({ year := 2000, month := 13, day := 0, hour := -1, minute := -1,
         date_type := none, pub_status := none } : PubMedDate).month = 0
      ∨ (1 ≤ ({ year := 2000, month := 13, day := 0, hour := -1, minute := -1,
                date_type := none, pub_status := none } : PubMedDate).month
         ∧ ({ year := 2000, month := 13, day := 0, hour := -1, minute := -1,
              date_type := none, pub_status := none } : PubMedDate).month ≤ 12)) := by
  exact ⟨by decide, by decide⟩

/-- C5 (amended): for every materialized Partial Date the month field is
below 256 (the `u8` range); it is *not* restricted to 0–12, because a bare
numeric month string such as "13" is kept verbatim. -/
theorem C5_amended_month_lt_256 (dbg : Bool) (n : XmlNode) (d : PubMedDate)
    (w : List String) (h : PubMedDate.new_from_xml dbg n = .ok (some d, w)) :
    d.month < 256 := by
  unfold PubMedDate.new_from_xml at h
  cases hf : foldChildren (PubMedDate.step dbg) (PubMedDate.init n) n.children with
  | error e => simp only [hf] at h; exact Except.noConfusion h
  | ok q =>
    rcases q with ⟨ret, w1⟩
    simp only [hf] at h
    have hm : ret.month < 256 := by
      refine foldChildren_ok_inv (PubMedDate.step dbg) (fun d2 => d2.month < 256)
        n.children ?_ (PubMedDate.init n) ret w1 ?_ hf
      · intro a c a2 w2 hmem hPa hstep
        rw [PubMedDate.step_month dbg a c a2 w2 hstep]
        split
        · exact parse_month_from_xml_lt c
        · exact hPa
      · show (0 : Nat) < 256
        decide
    injection h with h1
    injection h1 with hv hw
    cases hp : ret.precision with
    | zero => simp only [hp] at hv; exact Option.noConfusion hv
    | succ k =>
      simp only [hp] at hv
      injection hv with hd
      exact hd ▸ hm

/-- C5 (witness for the amended claim): the month-13 date is materialized
and its month is below 256. -/
theorem C5_amended_witness :
    ({ year := 2000, month := 13, day := 0, hour := -1, minute := -1,
       date_type := none, pub_status := none } : PubMedDate).month < 256 :=
  C5_amended_month_lt_256 false
    (.element "PubDate" []
      [.element "Year" [] [.textNode "2000"],
       .element "Month" [] [.textNode "13"]])
    { year := 2000, month := 13, day := 0, hour := -1, minute := -1,
      date_type := none, pub_status := none }
    [] (by decide)

/-- C6: a date element none of whose `Year` children carries text that
parses to a nonzero number (in particular, one with no `Year` child at
all, or whose year text fails to parse) decodes to `none`: no Partial Date
is materialized. -/
theorem C6_no_year_not_materialized (dbg : Bool) (n : XmlNode)
    (r : Option PubMedDate) (w : List String)
    (hy : ∀ c ∈ n.children, c.is_element = true → c.tag_name = "Year" →
            (match c.text with
             | some v => (parse_unsigned (2 ^ 32) v).getD 0
             | none => 0) = 0)
    (h : PubMedDate.new_from_xml dbg n = .ok (r, w)) : r = none := by
  unfold PubMedDate.new_from_xml at h
  cases hf : foldChildren (PubMedDate.step dbg) (PubMedDate.init n) n.children with
  | error e => simp only [hf] at h; exact Except.noConfusion h
  | ok q =>
    rcases q with ⟨ret, w1⟩
    simp only [hf] at h
    have hy0 : ret.year = 0 := by
      refine foldChildren_ok_inv (PubMedDate.step dbg) (fun d2 => d2.year = 0)
        n.children ?_ (PubMedDate.init n) ret w1 rfl hf
      intro a c a2 w2 hmem hPa hstep
      rw [PubMedDate.step_year dbg a c a2 w2 hstep]
      by_cases hc : (c.is_element && (c.tag_name == "Year")) = true
      · rw [if_pos hc]
        simp only [Bool.and_eq_true, beq_iff_eq] at hc
        exact hy c hmem hc.1 hc.2
      · rw [if_neg hc]
        exact hPa
    have hp0 : ret.precision = 0 := (PubMedDate.precision_eq_zero_iff ret).mpr hy0
    injection h with h1
    injection h1 with hv hw
    simp only [hp0] at hv
    exact hv.symm

/-- C6 (witness): a date element with a month but no year decodes to
`none`. -/
theorem C6_witness :
    (∀ c ∈ (XmlNode.element "PubDate" []
        [XmlNode.element "Month" [] [XmlNode.textNode "May"]]).children,
      c.is_element = true → c.tag_name = "Year" →
        (match c.text with
         | some v => (parse_unsigned (2 ^ 32) v).getD 0
         | none => 0) = 0)
  ∧ (none : Option PubMedDate) = none :=
  ⟨by decide,
   C6_no_year_not_materialized false
     (XmlNode.element "PubDate" [] [XmlNode.element "Month" [] [XmlNode.textNode "May"]])
     none [] (by decide) (by decide)⟩

/-- C7: a `MeshHeading` with no `DescriptorName` descendant decodes to
`none`; inside a `MeshHeadingList` such a heading is omitted from the
resulting list while all sibling headings still contribute; and the
containing `MedlineCitation` decode (release build) always succeeds — it
is never aborted by an incomplete subrecord. -/
theorem C7_incomplete_mesh_heading_skipped (hnode L n : XmlNode)
    (xs ys : List XmlNode)
    (hd : hnode.descendants.filter
        (fun c => c.is_element && c.tag_name == "DescriptorName") = []) :
    MeshHeading.new_from_xml hnode = none
  ∧ (L.descendants.filter
        (fun c => c.is_element && c.tag_name == "MeshHeading") = xs ++ hnode :: ys →
      MedlineCitation.meshHeadingListFrom L =
        xs.filterMap MeshHeading.new_from_xml ++ ys.filterMap MeshHeading.new_from_xml)
  ∧ (∃ out, MedlineCitation.new_from_xml false n = .ok out) := by
  have h0 := MeshHeading.new_from_xml_none hnode hd
  refine ⟨h0, ?_, ?_⟩
  · intro hL
    unfold MedlineCitation.meshHeadingListFrom
    rw [hL, List.filterMap_append, List.filterMap_cons, h0]
  · obtain ⟨out, w, hout⟩ := MedlineCitation_release_total n
    exact ⟨(out, w), hout⟩

/-- C7 (witness): a concrete list with one descriptor-less heading and one
complete heading; the incomplete one is dropped, the complete one kept,
and the containing citation decodes. -/
theorem C7_witness :
    MeshHeading.new_from_xml
        (.element "MeshHeading" [] [.element "QualifierName" [] [.textNode "Q"]]) = none
  ∧ MedlineCitation.meshHeadingListFrom
        (.element "MeshHeadingList" []
          [.element "MeshHeading" [] [.element "QualifierName" [] [.textNode "Q"]],
           .element "MeshHeading" []
             [.element "DescriptorName" [("UI", "D000001"), ("MajorTopicYN", "Y")]
               [.textNode "Test"]]]) =
      List.filterMap MeshHeading.new_from_xml []
        ++ List.filterMap MeshHeading.new_from_xml
            [XmlNode.element "MeshHeading" []
              [XmlNode.element "DescriptorName" [("UI", "D000001"), ("MajorTopicYN", "Y")]
                [XmlNode.textNode "Test"]]]
  ∧ (∃ out, MedlineCitation.new_from_xml false
        (.element "MedlineCitation" []
          [.element "MeshHeadingList" []
            [.element "MeshHeading" [] [.element "QualifierName" [] [.textNode "Q"]],
             .element "MeshHeading" []
               [.element "DescriptorName" [("UI", "D000001"), ("MajorTopicYN", "Y")]
                 [.textNode "Test"]]]]) = .ok out) :=
  ⟨(C7_incomplete_mesh_heading_skipped
      (.element "MeshHeading" [] [.element "QualifierName" [] [.textNode "Q"]])
      (.element "MeshHeadingList" []
        [.element "MeshHeading" [] [.element "QualifierName" [] [.textNode "Q"]],
         .element "MeshHeading" []
           [.element "DescriptorName" [("UI", "D000001"), ("MajorTopicYN", "Y")]
             [.textNode "Test"]]])
      (.element "MedlineCitation" []
        [.element "MeshHeadingList" []
          [.element "MeshHeading" [] [.element "QualifierName" [] [.textNode "Q"]],
           .element "MeshHeading" []
             [.element "DescriptorName" [("UI", "D000001"), ("MajorTopicYN", "Y")]
               [.textNode "Test"]]]])
      []
      [XmlNode.element "MeshHeading" []
        [XmlNode.element "DescriptorName" [("UI", "D000001"), ("MajorTopicYN", "Y")]
          [XmlNode.textNode "Test"]]]
      rfl).1,
   (C7_incomplete_mesh_heading_skipped
      (.element "MeshHeading" [] [.element "QualifierName" [] [.textNode "Q"]])
      (.element "MeshHeadingList" []
        [.element "MeshHeading" [] [.element "QualifierName" [] [.textNode "Q"]],
         .element "MeshHeading" []
           [.element "DescriptorName" [("UI", "D000001"), ("MajorTopicYN", "Y")]
             [.textNode "Test"]]])
      (.element "MedlineCitation" []
        [.element "MeshHeadingList" []
          [.element "MeshHeading" [] [.element "QualifierName" [] [.textNode "Q"]],
           .element "MeshHeading" []
             [.element "DescriptorName" [("UI", "D000001"), ("MajorTopicYN", "Y")]
               [.textNode "Test"]]]])
      []
      [XmlNode.element "MeshHeading" []
        [XmlNode.element "DescriptorName" [("UI", "D000001"), ("MajorTopicYN", "Y")]
          [XmlNode.textNode "Test"]]]
      rfl).2.1 rfl,
   (C7_incomplete_mesh_heading_skipped
      (.element "MeshHeading" [] [.element "QualifierName" [] [.textNode "Q"]])
      (.element "MeshHeadingList" []
        [.element "MeshHeading" [] [.element "QualifierName" [] [.textNode "Q"]],
         .element "MeshHeading" []
           [.element "DescriptorName" [("UI", "D000001"), ("MajorTopicYN", "Y")]
             [.textNode "Test"]]])
      (.element "MedlineCitation" []
        [.element "MeshHeadingList" []
          [.element "MeshHeading" [] [.element "QualifierName" [] [.textNode "Q"]],
           .element "MeshHeading" []
             [.element "DescriptorName" [("UI", "D000001"), ("MajorTopicYN", "Y")]
               [.textNode "Test"]]]])
      []
      [XmlNode.element "MeshHeading" []
        [XmlNode.element "DescriptorName" [("UI", "D000001"), ("MajorTopicYN", "Y")]
          [XmlNode.textNode "Test"]]]
      rfl).2.2⟩

/-- C8: only the first `AbstractText` descendant of an `Abstract` element
is retained: whenever there are at least two, the decoded text is the
first block's text and the later blocks are discarded (the decoder is a
total function — no error is possible). -/
theorem C8_abstract_first_text_block (n a b : XmlNode) (rest : List XmlNode)
    (h : abstractTextNodes n = a :: b :: rest) :
    (Abstract.new_from_xml n).text = some ((a.text).getD "") := by
  unfold Abstract.new_from_xml
  rw [h]
  rfl

/-- C8 (witness): an `Abstract` with two successive text blocks keeps only
the first. -/
theorem C8_witness :
    (Abstract.new_from_xml
        (.element "Abstract" []
          [.element "AbstractText" [] [.textNode "first"],
           .element "AbstractText" [] [.textNode "second"]])).text = some "first" :=
  C8_abstract_first_text_block
    (.element "Abstract" []
      [.element "AbstractText" [] [.textNode "first"],
       .element "AbstractText" [] [.textNode "second"]])
    (.element "AbstractText" [] [.textNode "first"])
    (.element "AbstractText" [] [.textNode "second"])
    [] rfl

/-- C9: the dispatch loop visits matching children in document order:
repeated `Identifier` children of an `Author` accumulate into the
`identifiers` list in document order, while for the scalar `last_name`
field (and likewise `Journal::title`) a repeated tag overwrites, so the
last occurrence in document order wins. -/
theorem C9_dispatch_repeat_semantics :
    (∀ (n : XmlNode) (a : Author) (w : List String),
        Author.new_from_xml false n = .ok (a, w) →
        a.identifiers =
            (n.children.filter
              (fun c => c.is_element && c.tag_name == "Identifier")).map
              Identifier.new_from_xml
          ∧ a.last_name =
              (match (n.children.filter
                  (fun c => c.is_element && c.tag_name == "LastName")).getLast? with
               | some c => c.text
               | none => none))
  ∧ (∀ (n : XmlNode) (j : Journal) (w : List String),
        Journal.new_from_xml false n = .ok (j, w) →
        j.title =
          (match (n.children.filter
              (fun c => c.is_element && c.tag_name == "Title")).getLast? with
           | some c => c.text
           | none => none)) := by
  constructor
  · intro n a w h
    constructor
    · have hacc := foldChildren_list_acc (Author.step false)
        (fun a2 => a2.identifiers)
        (fun c => c.is_element && c.tag_name == "Identifier")
        Identifier.new_from_xml
        (fun a2 c a3 w2 hs => Author.step_identifiers false a2 c a3 w2 hs)
        n.children (Author.init n) a w h
      simpa using hacc
    · have hlast := foldChildren_scalar (Author.step false)
        (fun a2 => a2.last_name)
        (fun c => c.is_element && c.tag_name == "LastName")
        (fun a2 c a3 w2 hs => Author.step_last_name false a2 c a3 w2 hs)
        n.children (Author.init n) a w h
      exact hlast
  · intro n j w h
    have hlast := foldChildren_scalar (Journal.step false)
      (fun j2 => j2.title)
      (fun c => c.is_element && c.tag_name == "Title")
      (fun j2 c j3 w2 hs => Journal.step_title false j2 c j3 w2 hs)
      n.children Journal.init j w h
    exact hlast

/-- C9 (witness): an author with two `LastName` and two `Identifier`
children: the identifiers accumulate in order, the second last name
wins. -/
theorem C9_witness :
    Author.new_from_xml false
        (.element "Author" []
          [.element "LastName" [] [.textNode "A"],
           .element "Identifier" [("Source", "ORCID")] [.textNode "X"],
           .element "LastName" [] [.textNode "B"],
           .element "Identifier" [] [.textNode "Y"]]) =
      .ok ({ last_name := some "B", fore_name := none, initials := none,
             suffix := none, collective_name := none, affiliation_info := none,
             identifiers := [{ id := some "X", source := some "ORCID" },
                             { id := some "Y", source := none }],
             valid := false }, [])
  ∧ ({ last_name := some "B", fore_name := none, initials := none,
       suffix := none, collective_name := none, affiliation_info := none,
       identifiers := [{ id := some "X", source := some "ORCID" },
                       { id := some "Y", source := none }],
       valid := false } : Author).last_name = some "B" := by
  refine ⟨by decide, ?_⟩
  have h := (C9_dispatch_repeat_semantics.1
    (.element "Author" []
      [.element "LastName" [] [.textNode "A"],
       .element "Identifier" [("Source", "ORCID")] [.textNode "X"],
       .element "LastName" [] [.textNode "B"],
       .element "Identifier" [] [.textNode "Y"]])
    { last_name := some "B", fore_name := none, initials := none,
      suffix := none, collective_name := none, affiliation_info := none,
      identifiers := [{ id := some "X", source := some "ORCID" },
                      { id := some "Y", source := none }],
      valid := false }
    [] (by decide)).2
  exact h

/-- C10: an `Abstract` element with an `AbstractText` descendant carrying
no text decodes to a present-but-empty abstract (`some ""`), while an
`Abstract` element with no `AbstractText` descendant decodes to an absent
abstract (`none`): empty and absent are distinguishable. -/
theorem C10_empty_vs_absent_abstract (n : XmlNode) :
    (abstractTextNodes n = [] → Abstract.new_from_xml n = { text := none })
  ∧ (∀ (x : XmlNode) (rest : List XmlNode),
      abstractTextNodes n = x :: rest → x.text = none →
      Abstract.new_from_xml n = { text := some "" }) := by
  constructor
  · intro h
    unfold Abstract.new_from_xml
    rw [h]
    rfl
  · intro x rest h hx
    unfold Abstract.new_from_xml
    rw [h]
    simp [hx]

/-- C10 (witness): a text-less `AbstractText` yields `some ""`; no
`AbstractText` at all yields `none`. -/
theorem C10_witness :
    Abstract.new_from_xml
        (.element "Abstract" [] [.element "AbstractText" [] []]) = { text := some "" }
  ∧ Abstract.new_from_xml
        (.element "Abstract" [] [.element "Other" [] []]) = { text := none } :=
  ⟨(C10_empty_vs_absent_abstract
      (.element "Abstract" [] [.element "AbstractText" [] []])).2
    (XmlNode.element "AbstractText" [] []) [] rfl rfl,
   (C10_empty_vs_absent_abstract
      (.element "Abstract" [] [.element "Other" [] []])).1 rfl⟩
